import Mathlib

/-!
Verification development for the checklist/task backend (`src/server.js`).

The server is an Express app over a managed database (Supabase).  Each HTTP
handler is shallowly embedded as a pure Lean function: the results of the
sequential database calls a handler makes are passed in as an explicit
environment (a fetched row is an `Option`/`Except`, an insert result is an
`Except` or an `Option` of the fresh id), and the handler's observable
behaviour — the HTTP response plus the writes it performed — is returned as an
explicit outcome record.  Ids are modelled as `Nat`, timestamps and text as
`String`/`Int`, JSON-absent fields as `Option`.
-/

namespace ChecklistBackend

/-- A row of the `tasks` table (`select('*')`). -/
structure Task where
  id : Nat
  checklist_id : Nat
  parent_id : Option Nat
  title : String
  description : Option String
  order_num : Int
  start_time : Option String
  end_time : Option String
  allocated_time : Option Int
  is_completed : Bool
deriving Repr, DecidableEq

/-- A row of the `checklists` table. -/
structure Checklist where
  id : Nat
  profile_id : Nat
  title : String
  is_shared_copy : Bool
deriving Repr, DecidableEq

/-- A row of the `share_requests` table. -/
structure ShareRequest where
  id : Nat
  checklist_id : Nat
  sender_id : Nat
  receiver_id : Nat
  status : String
deriving Repr, DecidableEq

/-- The payload the clone loop inserts into `tasks` (the `newTaskData` object
built in `POST /api/share-requests/:id/respond`). -/
structure NewTaskData where
  checklist_id : Nat
  parent_id : Option Nat
  title : String
  description : Option String
  order_num : Int
  start_time : Option String
  end_time : Option String
  allocated_time : Option Int
  is_completed : Bool
deriving Repr, DecidableEq

/-- The payload inserted into `checklists` by the accept branch. -/
structure NewChecklistData where
  profile_id : Nat
  title : String
  is_shared_copy : Bool
deriving Repr, DecidableEq

/-- Lookup in the `idMap` JavaScript object (original task id → new task id),
modelled as an association list where the most recent assignment is at the
front. -/
def lookupId (key : Nat) : List (Nat × Nat) → Option Nat
  | [] => none
  | (k, v) :: rest => if k = key then some v else lookupId key rest

/-- The `newTaskData` object built for one source task inside the clone loop:
every copyable field is taken from the source task, `checklist_id` is the new
checklist's id, and `parent_id` is resolved through `idMap`
(`task.parent_id ? idMap[task.parent_id] : null`; a missing map entry is
`undefined`, which the database stores as null, so both fall-back cases are
`none`). -/
def mkNewTaskData (newChecklistId : Nat) (idMap : List (Nat × Nat)) (task : Task) :
    NewTaskData :=
  { checklist_id := newChecklistId
    parent_id := match task.parent_id with
      | some p => lookupId p idMap
      | none => none
    title := task.title
    description := task.description
    order_num := task.order_num
    start_time := task.start_time
    end_time := task.end_time
    allocated_time := task.allocated_time
    is_completed := task.is_completed }

/-- The `for (const task of tasks)` clone loop.  `insertResult n` is the
database's answer to the n-th insert of the loop (`some newId` on success,
`none` when the insert errored); `i` is the index of the current iteration and
`idMap` the mapping accumulated so far.  Returns, in loop order, each attempted
insert payload together with the id the database assigned to it (or `none`).
A failed insert is not recorded in `idMap` (`if (!nTError && newTask)`). -/
def cloneTasks (newChecklistId : Nat) (insertResult : Nat → Option Nat) :
    List Task → Nat → List (Nat × Nat) → List (NewTaskData × Option Nat)
  | [], _, _ => []
  | task :: rest, i, idMap =>
      let newTaskData := mkNewTaskData newChecklistId idMap task
      let res := insertResult i
      let idMap2 := match res with
        | some newId => (task.id, newId) :: idMap
        | none => idMap
      (newTaskData, res) :: cloneTasks newChecklistId insertResult rest (i + 1) idMap2

/-- The `idMap` accumulated after the clone loop has processed the given task
list starting at iteration index `i` with initial map `m`. -/
def accMap (insertResult : Nat → Option Nat) :
    List Task → Nat → List (Nat × Nat) → List (Nat × Nat)
  | [], _, m => m
  | task :: rest, i, m =>
      accMap insertResult rest (i + 1)
        (match insertResult i with
          | some newId => (task.id, newId) :: m
          | none => m)

/-- HTTP responses of the respond endpoint, tagged by status class. -/
inductive HttpResponse where
  | badRequest (msg : String)
  | notFound (msg : String)
  | serverError (msg : String)
  | ok (msg : String)
deriving Repr, DecidableEq

/-- Results of the database calls `POST /api/share-requests/:id/respond` makes,
in program order: the share-request fetch (`none` covers both a query error and
no row), the status update (`some msg` = the update errored), the source
checklist fetch, the new-checklist insert (on success the fresh id), the task
fetch (ordered by `created_at` ascending), and the per-iteration task-insert
results. -/
structure RespondEnv where
  request : Option ShareRequest
  updateError : Option String
  checklistFetch : Except String Checklist
  newChecklistInsert : Except String Nat
  tasksFetch : Except String (List Task)
  taskInsertResult : Nat → Option Nat

/-- Observable outcome of the respond handler: the HTTP response, the status
value actually written to the share request (`none` when no update was
applied), the checklist row created (payload and fresh id), and the task
inserts attempted by the clone loop with their results. -/
structure RespondOutcome where
  response : HttpResponse
  statusUpdate : Option String
  insertedChecklist : Option (NewChecklistData × Nat)
  insertedTasks : List (NewTaskData × Option Nat)
deriving Repr, DecidableEq

/-- `POST /api/share-requests/:id/respond`, embedded line by line:
action whitelist, request fetch, pending guard, status update, and on accept
the fetch–insert–fetch–clone sequence. -/
def respond (action : String) (env : RespondEnv) : RespondOutcome :=
  if action ≠ "accept" ∧ action ≠ "reject" then
    { response := .badRequest "Invalid action", statusUpdate := none
      insertedChecklist := none, insertedTasks := [] }
  else
    match env.request with
    | none =>
        { response := .notFound "Request not found", statusUpdate := none
          insertedChecklist := none, insertedTasks := [] }
    | some request =>
        if request.status ≠ "pending" then
          { response := .badRequest "Request already processed", statusUpdate := none
            insertedChecklist := none, insertedTasks := [] }
        else
          let newStatus := if action = "accept" then "accepted" else "rejected"
          match env.updateError with
          | some msg =>
              { response := .serverError msg, statusUpdate := none
                insertedChecklist := none, insertedTasks := [] }
          | none =>
              if action = "accept" then
                match env.checklistFetch with
                | .error msg =>
                    { response := .serverError msg, statusUpdate := some newStatus
                      insertedChecklist := none, insertedTasks := [] }
                | .ok originalChecklist =>
                    let newChecklistData : NewChecklistData :=
                      { profile_id := request.receiver_id
                        title := originalChecklist.title
                        is_shared_copy := true }
                    match env.newChecklistInsert with
                    | .error msg =>
                        { response := .serverError msg, statusUpdate := some newStatus
                          insertedChecklist := none, insertedTasks := [] }
                    | .ok newId =>
                        match env.tasksFetch with
                        | .error msg =>
                            { response := .serverError msg
                              statusUpdate := some newStatus
                              insertedChecklist := some (newChecklistData, newId)
                              insertedTasks := [] }
                        | .ok tasks =>
                            { response := .ok "Accepted and cloned checklist"
                              statusUpdate := some newStatus
                              insertedChecklist := some (newChecklistData, newId)
                              insertedTasks :=
                                cloneTasks newId env.taskInsertResult tasks 0 [] }
              else
                { response := .ok "Rejected share request", statusUpdate := some newStatus
                  insertedChecklist := none, insertedTasks := [] }

/-- The handler performed no write: no status transition, no checklist row, no
task insert attempts. -/
def noWrites (o : RespondOutcome) : Prop :=
  o.statusUpdate = none ∧ o.insertedChecklist = none ∧ o.insertedTasks = []

/-- The copyable fields of a cloned task payload coincide with the source
task's. -/
def preservesCopyableFields (d : NewTaskData) (t : Task) : Prop :=
  d.title = t.title ∧ d.description = t.description ∧ d.order_num = t.order_num ∧
  d.start_time = t.start_time ∧ d.end_time = t.end_time ∧
  d.allocated_time = t.allocated_time ∧ d.is_completed = t.is_completed

/-! ## Profiles: login and field whitelists -/

/-- A row of the `profiles` table (`select('*')` in the login handler). -/
structure ProfileRow where
  id : Nat
  name : String
  password_hash : String
  avatar_url : Option String
  created_at : Nat
deriving Repr, DecidableEq

/-- The response payload of a successful login: the profile row after
`const \x7b password_hash, ...safeProfile \x7d = profile`. -/
structure SafeProfile where
  id : Nat
  name : String
  avatar_url : Option String
  created_at : Nat
deriving Repr, DecidableEq

/-- The rest-spread that drops `password_hash` from the fetched profile row. -/
def stripPasswordHash (p : ProfileRow) : SafeProfile :=
  { id := p.id, name := p.name, avatar_url := p.avatar_url, created_at := p.created_at }

/-- JavaScript truthiness of an optional JSON string field: absent (`none`) and
the empty string are falsy, every other string is truthy. -/
def truthyStr : Option String → Bool
  | none => false
  | some s => !(s == "")

/-- Responses of `POST /api/profiles/login`. -/
inductive LoginResponse where
  | badRequest (msg : String)
  | notFound (msg : String)
  | unauthorized (msg : String)
  | ok (profile : SafeProfile)
deriving Repr, DecidableEq

/-- `POST /api/profiles/login`: required-field check, profile fetch by id
(`none` covers a query error or no row), `bcrypt.compare` (passed in as the
oracle `compare`), then either 401 or the profile without its hash. -/
def login (profile_id password : Option String) (fetch : Option ProfileRow)
    (compare : String → String → Bool) : LoginResponse :=
  if truthyStr profile_id = false ∨ truthyStr password = false then
    .badRequest "Profile ID and password required"
  else
    match fetch with
    | none => .notFound "Profile not found"
    | some profile =>
        if compare (password.getD "") profile.password_hash = false then
          .unauthorized "Invalid password"
        else
          .ok (stripPasswordHash profile)

/-- Columns of the `profiles` table. -/
def profilesTableColumns : List String :=
  ["id", "name", "password_hash", "avatar_url", "created_at"]

/-- Keys kept by a rest-spread that destructures away one field. -/
def restSpreadOmit (omitted : String) (cols : List String) : List String :=
  cols.filter (fun c => c ≠ omitted)

/-- Keys of the login success payload (`...safeProfile`). -/
def loginSuccessColumns : List String :=
  restSpreadOmit "password_hash" profilesTableColumns

/-- Select list of `POST /api/profiles` (`'id, name, avatar_url, created_at'`). -/
def profileCreateSelectColumns : List String :=
  ["id", "name", "avatar_url", "created_at"]

/-- Select list of `GET /api/profiles`. -/
def profileListSelectColumns : List String :=
  ["id", "name", "avatar_url", "created_at"]

/-- Select list of `PUT /api/profiles/:id`. -/
def profileUpdateSelectColumns : List String :=
  ["id", "name", "avatar_url", "created_at"]

/-! ## Validation short-circuiting: profile create vs. task create -/

/-- A database error object (`message`, `code`). -/
structure DbError where
  message : String
  code : String
deriving Repr, DecidableEq

/-- Outcome of a handler, reduced to what the validation claims observe: how
many database calls the handler issued and the HTTP status it answered with. -/
structure HandlerResult where
  dbCalls : Nat
  status : Nat
deriving Repr, DecidableEq

/-- `POST /api/profiles`: missing `name` or `password` is answered 400 before
any database call; otherwise the insert runs, a `23505` error is remapped to
409, any other error to 500, success to 201. -/
def createProfile (name password avatar_url : Option String)
    (insert : Except DbError ProfileRow) : HandlerResult :=
  if truthyStr name = false ∨ truthyStr password = false then
    { dbCalls := 0, status := 400 }
  else
    match insert with
    | .error e => if e.code = "23505" then { dbCalls := 1, status := 409 }
                  else { dbCalls := 1, status := 500 }
    | .ok _ => { dbCalls := 1, status := 201 }

/-- `POST /api/checklists`: missing `profile_id` or `title` is answered 400
before any database call. -/
def createChecklist (profile_id title : Option String)
    (insert : Except DbError Checklist) : HandlerResult :=
  if truthyStr profile_id = false ∨ truthyStr title = false then
    { dbCalls := 0, status := 400 }
  else
    match insert with
    | .error _ => { dbCalls := 1, status := 500 }
    | .ok _ => { dbCalls := 1, status := 201 }

/-- Request body of `POST /api/tasks` (all fields optional JSON values). -/
structure TaskCreateBody where
  checklist_id : Option String
  parent_id : Option String
  title : Option String
  description : Option String
  order_num : Option Int
  start_time : Option String
  end_time : Option String
  allocated_time : Option Int
deriving Repr, DecidableEq

/-- The insert payload `POST /api/tasks` builds from its body:
`parent_id: parent_id || null` (a falsy `parent_id` becomes null), all other
fields passed through verbatim. -/
structure TaskInsertData where
  checklist_id : Option String
  parent_id : Option String
  title : Option String
  description : Option String
  order_num : Option Int
  start_time : Option String
  end_time : Option String
  allocated_time : Option Int
deriving Repr, DecidableEq

/-- Builds the payload `POST /api/tasks` sends to the database. -/
def taskInsertPayload (b : TaskCreateBody) : TaskInsertData :=
  { checklist_id := b.checklist_id
    parent_id := if truthyStr b.parent_id then b.parent_id else none
    title := b.title
    description := b.description
    order_num := b.order_num
    start_time := b.start_time
    end_time := b.end_time
    allocated_time := b.allocated_time }

/-- Outcome of `POST /api/tasks`: database calls made, the payload sent (if a
call was made) and the HTTP status. -/
structure TaskCreateResult where
  dbCalls : Nat
  payload : Option TaskInsertData
  status : Nat
deriving Repr, DecidableEq

/-- `POST /api/tasks`: the handler performs no field validation at all — it
always issues the insert with the pass-through payload; an error is 500,
success is 201. -/
def createTask (body : TaskCreateBody) (insert : Except DbError Task) :
    TaskCreateResult :=
  let payload := taskInsertPayload body
  match insert with
  | .error _ => { dbCalls := 1, payload := some payload, status := 500 }
  | .ok _ => { dbCalls := 1, payload := some payload, status := 201 }

/-! ## Task update (partial, field-presence-driven) -/

/-- Request body of `PUT /api/tasks/:id`.  The outer `Option` is JSON presence
(`undefined` vs. present); for nullable columns the inner `Option` is the value
(possibly null). -/
structure TaskUpdateBody where
  title : Option String
  description : Option (Option String)
  is_completed : Option Bool
  order_num : Option Int
  start_time : Option (Option String)
  end_time : Option (Option String)
  allocated_time : Option (Option Int)
deriving Repr, DecidableEq

/-- One entry of the `updates` object `PUT /api/tasks/:id` builds. -/
inductive TaskAssign where
  | title (v : String)
  | description (v : Option String)
  | is_completed (v : Bool)
  | order_num (v : Int)
  | start_time (v : Option String)
  | end_time (v : Option String)
  | allocated_time (v : Option Int)
deriving Repr, DecidableEq

/-- The `updates` object: one assignment per body field that is present
(`!== undefined`), in the source's field order. -/
def buildTaskUpdates (b : TaskUpdateBody) : List TaskAssign :=
  (match b.title with | some v => [TaskAssign.title v] | none => []) ++
  (match b.description with | some v => [TaskAssign.description v] | none => []) ++
  (match b.is_completed with | some v => [TaskAssign.is_completed v] | none => []) ++
  (match b.order_num with | some v => [TaskAssign.order_num v] | none => []) ++
  (match b.start_time with | some v => [TaskAssign.start_time v] | none => []) ++
  (match b.end_time with | some v => [TaskAssign.end_time v] | none => []) ++
  (match b.allocated_time with | some v => [TaskAssign.allocated_time v] | none => [])

/-- The database writes one assigned column of an `update` statement, leaving
every other column of the row unchanged. -/
def applyAssign (row : Task) (a : TaskAssign) : Task :=
  match a with
  | .title v => { row with title := v }
  | .description v => { row with description := v }
  | .is_completed v => { row with is_completed := v }
  | .order_num v => { row with order_num := v }
  | .start_time v => { row with start_time := v }
  | .end_time v => { row with end_time := v }
  | .allocated_time v => { row with allocated_time := v }

/-- Effect of `PUT /api/tasks/:id` on the task row: apply exactly the
assignments of the `updates` object. -/
def applyTaskUpdate (b : TaskUpdateBody) (row : Task) : Task :=
  (buildTaskUpdates b).foldl applyAssign row

/-! ## Concrete fixtures for evaluated instances -/

/-- Fixture: a root task of checklist 7. -/
def taskA : Task :=
  { id := 1, checklist_id := 7, parent_id := none, title := "Pack"
    description := none, order_num := 1, start_time := none, end_time := none
    allocated_time := none, is_completed := false }

/-- Fixture: a child task of `taskA`. -/
def taskB : Task :=
  { id := 2, checklist_id := 7, parent_id := some 1, title := "Shoes"
    description := some "pack shoes", order_num := 2, start_time := some "08:00"
    end_time := none, allocated_time := some 5, is_completed := true }

/-- Fixture: a pending share request for checklist 7. -/
def pendingRequest : ShareRequest :=
  { id := 3, checklist_id := 7, sender_id := 10, receiver_id := 11, status := "pending" }

/-- Fixture: the source checklist. -/
def sourceChecklist : Checklist :=
  { id := 7, profile_id := 10, title := "Trip", is_shared_copy := false }

/-- Fixture environment: every database call of the accept path succeeds; the
n-th task insert is assigned id `100 + n`. -/
def envAllOk : RespondEnv :=
  { request := some pendingRequest, updateError := none
    checklistFetch := .ok sourceChecklist, newChecklistInsert := .ok 20
    tasksFetch := .ok [taskA, taskB], taskInsertResult := fun n => some (100 + n) }

/-- Fixture environment: like `envAllOk` but the first task insert fails. -/
def envFirstInsertFails : RespondEnv :=
  { envAllOk with taskInsertResult := fun n => if n = 0 then none else some (100 + n) }

/-- Fixture environment: the share request does not exist. -/
def envNoRequest : RespondEnv := { envAllOk with request := none }

/-- Fixture environment: the share request was already accepted. -/
def envProcessed : RespondEnv :=
  { envAllOk with request := some { pendingRequest with status := "accepted" } }

/-- Fixture environment: the source-checklist fetch fails. -/
def envChecklistFetchFails : RespondEnv :=
  { envAllOk with checklistFetch := .error "db down" }

/-- Fixture environment: the task fetch fails. -/
def envTasksFetchFails : RespondEnv :=
  { envAllOk with tasksFetch := .error "db down" }

/-- Fixture environment: the source checklist has no tasks. -/
def envNoTasks : RespondEnv := { envAllOk with tasksFetch := .ok [] }

/-- Fixture profile row. -/
def profileP : ProfileRow :=
  { id := 5, name := "ann", password_hash := "h1", avatar_url := none, created_at := 9 }

/-- Fixture task-create body with every field absent. -/
def emptyTaskBody : TaskCreateBody :=
  { checklist_id := none, parent_id := none, title := none, description := none
    order_num := none, start_time := none, end_time := none, allocated_time := none }

/-! ## Helper lemmas about the clone loop -/

/-- The clone loop attempts one insert per fetched task. -/
theorem cloneTasks_length (cid : Nat) (ins : Nat → Option Nat) (ts : List Task)
    (i : Nat) (m : List (Nat × Nat)) :
    (cloneTasks cid ins ts i m).length = ts.length := by
  induction ts generalizing i m with
  | nil => rfl
  | cons t rest ih => simp [cloneTasks, ih]

/-- The `p`-th attempted insert of the clone loop: its payload is built from
the map accumulated over the first `p` tasks, and its result is the database's
answer at iteration `i + p`. -/
theorem cloneTasks_getElem? (cid : Nat) (ins : Nat → Option Nat) (ts : List Task)
    (i : Nat) (m : List (Nat × Nat)) (p : Nat) :
    (cloneTasks cid ins ts i m)[p]? =
      (ts[p]?).map (fun t => (mkNewTaskData cid (accMap ins (ts.take p) i m) t, ins (i + p))) := by
  induction ts generalizing i m p with
  | nil => simp [cloneTasks]
  | cons t rest ih =>
      cases p with
      | zero => simp [cloneTasks, accMap]
      | succ q =>
          simp only [cloneTasks, List.getElem?_cons_succ, List.take_succ_cons, accMap]
          rw [ih]
          simp only [show i + 1 + q = i + (q + 1) from by omega]

/-- A key that belongs to no processed task is resolved by the initial map. -/
theorem lookupId_accMap_of_not_mem (ins : Nat → Option Nat) (key : Nat)
    (ts : List Task) (i : Nat) (m : List (Nat × Nat))
    (h : key ∉ ts.map Task.id) :
    lookupId key (accMap ins ts i m) = lookupId key m := by
  induction ts generalizing i m with
  | nil => rfl
  | cons t rest ih =>
      simp only [List.map_cons, List.mem_cons, not_or] at h
      obtain ⟨h1, h2⟩ := h
      simp only [accMap]
      rw [ih _ _ h2]
      cases hins : ins i with
      | none => rfl
      | some v => simp [lookupId, Ne.symm h1]

/-- When every insert succeeds with fresh id `f n` at iteration `n` and the
source task ids are distinct, the accumulated map sends the id of the `j`-th
processed task to `f (i + j)`. -/
theorem lookupId_accMap_success (ins : Nat → Option Nat) (f : Nat → Nat)
    (hins : ∀ n, ins n = some (f n)) (ts : List Task)
    (hnd : (ts.map Task.id).Nodup) (j : Nat) (tj : Task)
    (hget : ts[j]? = some tj) (i : Nat) (m : List (Nat × Nat)) :
    lookupId tj.id (accMap ins ts i m) = some (f (i + j)) := by
  induction ts generalizing i m j with
  | nil => simp at hget
  | cons t rest ih =>
      simp only [List.map_cons, List.nodup_cons] at hnd
      obtain ⟨hni, hnd2⟩ := hnd
      cases j with
      | zero =>
          simp only [List.getElem?_cons_zero, Option.some_inj] at hget
          subst hget
          simp only [accMap, hins i]
          rw [lookupId_accMap_of_not_mem _ _ _ _ _ hni]
          simp [lookupId]
      | succ q =>
          simp only [List.getElem?_cons_succ] at hget
          simp only [accMap]
          rw [ih hnd2 q hget]
          simp only [show i + 1 + q = i + (q + 1) from by omega]

/-- When the insert of the `j`-th processed task failed and the source task
ids are distinct, the accumulated map has no entry for its id beyond the
initial map. -/
theorem lookupId_accMap_failed (ins : Nat → Option Nat) (ts : List Task)
    (hnd : (ts.map Task.id).Nodup) (j : Nat) (tj : Task)
    (hget : ts[j]? = some tj) (i : Nat) (m : List (Nat × Nat))
    (hfail : ins (i + j) = none) :
    lookupId tj.id (accMap ins ts i m) = lookupId tj.id m := by
  induction ts generalizing i m j with
  | nil => simp at hget
  | cons t rest ih =>
      simp only [List.map_cons, List.nodup_cons] at hnd
      obtain ⟨hni, hnd2⟩ := hnd
      cases j with
      | zero =>
          simp only [List.getElem?_cons_zero, Option.some_inj] at hget
          subst hget
          have h0 : ins i = none := by simpa using hfail
          simp only [accMap, h0]
          exact lookupId_accMap_of_not_mem _ _ _ _ _ hni
      | succ q =>
          simp only [List.getElem?_cons_succ] at hget
          have hmem : tj.id ∈ rest.map Task.id :=
            List.mem_map_of_mem Task.id (List.getElem?_mem hget)
          have hne : t.id ≠ tj.id := fun he => hni (he ▸ hmem)
          have hfail2 : ins (i + 1 + q) = none := by
            simpa [show i + 1 + q = i + (q + 1) from by omega] using hfail
          simp only [accMap]
          rw [ih hnd2 q hget _ _ hfail2]
          cases hins : ins i with
          | none => rfl
          | some v => simp [lookupId, hne]

/-! ## Helper lemmas about the respond handler's paths -/

/-- Outcome of the fully successful accept path. -/
theorem respond_accept_ok (env : RespondEnv) (r : ShareRequest) (cl : Checklist)
    (nid : Nat) (ts : List Task)
    (hreq : env.request = some r) (hpending : r.status = "pending")
    (hupd : env.updateError = none) (hcl : env.checklistFetch = .ok cl)
    (hnc : env.newChecklistInsert = .ok nid) (hts : env.tasksFetch = .ok ts) :
    respond "accept" env =
      { response := .ok "Accepted and cloned checklist"
        statusUpdate := some "accepted"
        insertedChecklist :=
          some ({ profile_id := r.receiver_id, title := cl.title
                  is_shared_copy := true }, nid)
        insertedTasks := cloneTasks nid env.taskInsertResult ts 0 [] } := by
  simp [respond, hreq, hpending, hupd, hcl, hnc, hts]

/-- Outcome of the accept path when the source-checklist fetch fails. -/
theorem respond_accept_checklistFetch_error (env : RespondEnv) (r : ShareRequest)
    (msg : String)
    (hreq : env.request = some r) (hpending : r.status = "pending")
    (hupd : env.updateError = none) (hcl : env.checklistFetch = .error msg) :
    respond "accept" env =
      { response := .serverError msg, statusUpdate := some "accepted"
        insertedChecklist := none, insertedTasks := [] } := by
  simp [respond, hreq, hpending, hupd, hcl]

/-- Outcome of the accept path when the task fetch fails. -/
theorem respond_accept_tasksFetch_error (env : RespondEnv) (r : ShareRequest)
    (cl : Checklist) (nid : Nat) (msg : String)
    (hreq : env.request = some r) (hpending : r.status = "pending")
    (hupd : env.updateError = none) (hcl : env.checklistFetch = .ok cl)
    (hnc : env.newChecklistInsert = .ok nid) (hts : env.tasksFetch = .error msg) :
    respond "accept" env =
      { response := .serverError msg, statusUpdate := some "accepted"
        insertedChecklist :=
          some ({ profile_id := r.receiver_id, title := cl.title
                  is_shared_copy := true }, nid)
        insertedTasks := [] } := by
  simp [respond, hreq, hpending, hupd, hcl, hnc, hts]

/-! ## Claim theorems -/

/-- C1: accepting a share request over a source checklist with N tasks, all of
whose inserts succeed (the database answers iteration `n` with fresh id
`f n`), attempts exactly N task creations under the new checklist; each clone
preserves title, description, order number, start/end time, allocated time and
completion flag; and when task k's `parent_id` points at the id of task j
fetched before it (j < k in creation order, ids distinct), the clone of k is
inserted with `parent_id` equal to `f j` — the id the database assigned to the
clone of j, not the original id. -/
theorem respond_accept_clones_task_tree (env : RespondEnv) (r : ShareRequest)
    (cl : Checklist) (nid : Nat) (ts : List Task) (f : Nat → Nat)
    (hreq : env.request = some r) (hpending : r.status = "pending")
    (hupd : env.updateError = none) (hcl : env.checklistFetch = .ok cl)
    (hnc : env.newChecklistInsert = .ok nid) (hts : env.tasksFetch = .ok ts)
    (hins : ∀ n, env.taskInsertResult n = some (f n))
    (hnd : (ts.map Task.id).Nodup) :
    (respond "accept" env).insertedTasks.length = ts.length ∧
    (∀ p t, ts[p]? = some t →
      ∃ e, (respond "accept" env).insertedTasks[p]? = some e ∧
        preservesCopyableFields e.1 t ∧ e.1.checklist_id = nid ∧
        e.2 = some (f p)) ∧
    (∀ j k tj tk, j < k → ts[j]? = some tj → ts[k]? = some tk →
      tk.parent_id = some tj.id →
      ∃ e, (respond "accept" env).insertedTasks[k]? = some e ∧
        e.1.parent_id = some (f j) ∧
        ((respond "accept" env).insertedTasks[j]?).map (fun d => d.2) =
          some (some (f j))) := by
  rw [respond_accept_ok env r cl nid ts hreq hpending hupd hcl hnc hts]
  refine ⟨cloneTasks_length _ _ _ _ _, ?_, ?_⟩
  · intro p t hp
    refine ⟨(mkNewTaskData nid (accMap env.taskInsertResult (ts.take p) 0 []) t,
             env.taskInsertResult (0 + p)), ?_, ?_, rfl, ?_⟩
    · rw [cloneTasks_getElem?, hp]; rfl
    · simp [mkNewTaskData, preservesCopyableFields]
    · simpa using hins p
  · intro j k tj tk hjk hgj hgk hpar
    have hndk : ((ts.take k).map Task.id).Nodup := by
      rw [List.map_take]
      exact hnd.sublist (List.take_sublist k (ts.map Task.id))
    have hgjk : (ts.take k)[j]? = some tj := by
      rw [List.getElem?_take_of_lt hjk]; exact hgj
    have hlook : lookupId tj.id (accMap env.taskInsertResult (ts.take k) 0 []) =
        some (f (0 + j)) :=
      lookupId_accMap_success env.taskInsertResult f hins (ts.take k) hndk j tj hgjk 0 []
    refine ⟨(mkNewTaskData nid (accMap env.taskInsertResult (ts.take k) 0 []) tk,
             env.taskInsertResult (0 + k)), ?_, ?_, ?_⟩
    · rw [cloneTasks_getElem?, hgk]; rfl
    · simp only [mkNewTaskData, hpar]
      rw [hlook]
      simp
    · rw [cloneTasks_getElem?, hgj]
      simp [hins j]

/-- Witness for C1: in the all-successful fixture environment (tasks `taskA`
then its child `taskB`, insert n answered with id `100 + n`), the clone of
`taskB` is inserted with `parent_id = 100`, the id assigned to the clone of
`taskA`. -/
theorem respond_accept_clones_task_tree_witness :
    ((respond "accept" envAllOk).insertedTasks[1]?).map (fun e => e.1.parent_id) =
      some (some 100) ∧
    ((respond "accept" envAllOk).insertedTasks[0]?).map (fun d => d.2) =
      some (some 100) := by
  obtain ⟨e, he, hp, hj⟩ :=
    (respond_accept_clones_task_tree envAllOk pendingRequest sourceChecklist 20
        [taskA, taskB] (fun n => 100 + n) rfl rfl rfl rfl rfl rfl (fun _ => rfl)
        (by decide)).2.2 0 1 taskA taskB (by decide) rfl rfl rfl
  constructor
  · rw [he, Option.map_some', hp]
  · exact hj

/-- C2: during a clone, a source task whose own insert failed is skipped — the
response is still the success message, the failed insert yields no new row,
the id mapping gains no entry for that task — and every later task whose
original `parent_id` referenced the failed task is inserted with
`parent_id = null`, without any error. -/
theorem respond_accept_failed_insert_yields_null_parent (env : RespondEnv)
    (r : ShareRequest) (cl : Checklist) (nid : Nat) (ts : List Task)
    (hreq : env.request = some r) (hpending : r.status = "pending")
    (hupd : env.updateError = none) (hcl : env.checklistFetch = .ok cl)
    (hnc : env.newChecklistInsert = .ok nid) (hts : env.tasksFetch = .ok ts)
    (hnd : (ts.map Task.id).Nodup)
    (k : Nat) (tk : Task) (hgk : ts[k]? = some tk)
    (hfail : env.taskInsertResult k = none) :
    (respond "accept" env).response = HttpResponse.ok "Accepted and cloned checklist" ∧
    ((respond "accept" env).insertedTasks[k]?).map (fun e => e.2) = some none ∧
    lookupId tk.id (accMap env.taskInsertResult ts 0 []) = none ∧
    (∀ c tc, k < c → ts[c]? = some tc → tc.parent_id = some tk.id →
      ((respond "accept" env).insertedTasks[c]?).map (fun e => e.1.parent_id) =
        some none) := by
  rw [respond_accept_ok env r cl nid ts hreq hpending hupd hcl hnc hts]
  have hfail0 : env.taskInsertResult (0 + k) = none := by simpa using hfail
  refine ⟨rfl, ?_, ?_, ?_⟩
  · rw [cloneTasks_getElem?, hgk]
    simp [hfail]
  · rw [lookupId_accMap_failed env.taskInsertResult ts hnd k tk hgk 0 [] hfail0]
    rfl
  · intro c tc hkc hgc hpar
    have hndc : ((ts.take c).map Task.id).Nodup := by
      rw [List.map_take]
      exact hnd.sublist (List.take_sublist c (ts.map Task.id))
    have hgkc : (ts.take c)[k]? = some tk := by
      rw [List.getElem?_take_of_lt hkc]; exact hgk
    have hlook : lookupId tk.id (accMap env.taskInsertResult (ts.take c) 0 []) =
        lookupId tk.id [] :=
      lookupId_accMap_failed env.taskInsertResult (ts.take c) hndc k tk hgkc 0 [] hfail0
    rw [cloneTasks_getElem?, hgc]
    simp only [Option.map_some', mkNewTaskData, hpar]
    rw [hlook]
    rfl

/-- Witness for C2: with the fixture environment in which the insert of
`taskA` fails, the response is still the success message, `taskA` yields no
row, and the clone of its child `taskB` is inserted with a null parent. -/
theorem respond_accept_failed_insert_yields_null_parent_witness :
    (respond "accept" envFirstInsertFails).response =
      HttpResponse.ok "Accepted and cloned checklist" ∧
    ((respond "accept" envFirstInsertFails).insertedTasks[0]?).map (fun e => e.2) =
      some none ∧
    ((respond "accept" envFirstInsertFails).insertedTasks[1]?).map
        (fun e => e.1.parent_id) = some none := by
  obtain ⟨h1, h2, h3, h4⟩ :=
    respond_accept_failed_insert_yields_null_parent envFirstInsertFails
      pendingRequest sourceChecklist 20 [taskA, taskB] rfl rfl rfl rfl rfl rfl
      (by decide) 0 taskA rfl rfl
  exact ⟨h1, h2, h4 1 taskB (by decide) rfl rfl⟩

/-- C4: within one accept-and-clone operation, a failure of the
source-checklist fetch or of the task fetch makes the whole operation answer a
server error, while a failure of an individual task insert neither aborts the
cloning of the remaining tasks (one insert is still attempted per fetched
task) nor changes the success response — the conclusion holds for every
per-task insert oracle `env.taskInsertResult`. -/
theorem respond_fetch_failures_fatal_task_insert_failures_not (env : RespondEnv)
    (r : ShareRequest) (hreq : env.request = some r) (hpending : r.status = "pending")
    (hupd : env.updateError = none) :
    (∀ msg, env.checklistFetch = .error msg →
      (respond "accept" env).response = HttpResponse.serverError msg) ∧
    (∀ cl nid msg, env.checklistFetch = .ok cl →
      env.newChecklistInsert = .ok nid → env.tasksFetch = .error msg →
      (respond "accept" env).response = HttpResponse.serverError msg) ∧
    (∀ cl nid ts, env.checklistFetch = .ok cl →
      env.newChecklistInsert = .ok nid → env.tasksFetch = .ok ts →
      (respond "accept" env).response = HttpResponse.ok "Accepted and cloned checklist" ∧
      (respond "accept" env).insertedTasks.length = ts.length) := by
  refine ⟨?_, ?_, ?_⟩
  · intro msg hcl
    rw [respond_accept_checklistFetch_error env r msg hreq hpending hupd hcl]
  · intro cl nid msg hcl hnc hts
    rw [respond_accept_tasksFetch_error env r cl nid msg hreq hpending hupd hcl hnc hts]
  · intro cl nid ts hcl hnc hts
    rw [respond_accept_ok env r cl nid ts hreq hpending hupd hcl hnc hts]
    exact ⟨rfl, cloneTasks_length _ _ _ _ _⟩

/-- Witness for C4: with the fixture environment whose checklist fetch fails,
the accept operation answers exactly that server error. -/
theorem respond_fetch_failure_witness :
    (respond "accept" envChecklistFetchFails).response =
      HttpResponse.serverError "db down" :=
  (respond_fetch_failures_fatal_task_insert_failures_not envChecklistFetchFails
      pendingRequest rfl rfl rfl).1 "db down" rfl

/-- C5: for every accepted share request whose clone reaches the checklist
insert, the checklist row created has `is_shared_copy = true`, is owned by the
request's receiver profile, and carries the source checklist's title. -/
theorem respond_accept_new_checklist_fields (env : RespondEnv) (r : ShareRequest)
    (cl : Checklist) (nid : Nat)
    (hreq : env.request = some r) (hpending : r.status = "pending")
    (hupd : env.updateError = none) (hcl : env.checklistFetch = .ok cl)
    (hnc : env.newChecklistInsert = .ok nid) :
    (respond "accept" env).insertedChecklist =
      some ({ profile_id := r.receiver_id, title := cl.title
              is_shared_copy := true }, nid) := by
  cases hts : env.tasksFetch with
  | error msg =>
      rw [respond_accept_tasksFetch_error env r cl nid msg hreq hpending hupd hcl hnc hts]
  | ok ts =>
      rw [respond_accept_ok env r cl nid ts hreq hpending hupd hcl hnc hts]

/-- Witness for C5: in the all-successful fixture environment the created
checklist row is the receiver-owned shared copy of "Trip". -/
theorem respond_accept_new_checklist_fields_witness :
    (respond "accept" envAllOk).insertedChecklist =
      some ({ profile_id := 11, title := "Trip", is_shared_copy := true }, 20) :=
  respond_accept_new_checklist_fields envAllOk pendingRequest sourceChecklist 20
    rfl rfl rfl rfl rfl

/-- C8: accepting a share request whose source checklist has no tasks reports
success and creates zero tasks under the new checklist. -/
theorem respond_accept_empty_task_list (env : RespondEnv) (r : ShareRequest)
    (cl : Checklist) (nid : Nat)
    (hreq : env.request = some r) (hpending : r.status = "pending")
    (hupd : env.updateError = none) (hcl : env.checklistFetch = .ok cl)
    (hnc : env.newChecklistInsert = .ok nid) (hts : env.tasksFetch = .ok []) :
    (respond "accept" env).response = HttpResponse.ok "Accepted and cloned checklist" ∧
    (respond "accept" env).insertedTasks = [] := by
  rw [respond_accept_ok env r cl nid [] hreq hpending hupd hcl hnc hts]
  exact ⟨rfl, rfl⟩

/-- Witness for C8: the fixture environment with an empty task list yields the
success response and no task inserts. -/
theorem respond_accept_empty_task_list_witness :
    (respond "accept" envNoTasks).response =
      HttpResponse.ok "Accepted and cloned checklist" ∧
    (respond "accept" envNoTasks).insertedTasks = [] :=
  respond_accept_empty_task_list envNoTasks pendingRequest sourceChecklist 20
    rfl rfl rfl rfl rfl rfl

/-- C10: accepting a pending share request writes status `accepted` before the
clone starts, so when the subsequent source-checklist fetch or task fetch
fails the caller gets a server error while the request's recorded status is
nevertheless `accepted`. -/
theorem respond_status_accepted_despite_clone_failure (env : RespondEnv)
    (r : ShareRequest) (hreq : env.request = some r)
    (hpending : r.status = "pending") (hupd : env.updateError = none) :
    (∀ msg, env.checklistFetch = .error msg →
      (respond "accept" env).response = HttpResponse.serverError msg ∧
      (respond "accept" env).statusUpdate = some "accepted") ∧
    (∀ cl nid msg, env.checklistFetch = .ok cl → env.newChecklistInsert = .ok nid →
      env.tasksFetch = .error msg →
      (respond "accept" env).response = HttpResponse.serverError msg ∧
      (respond "accept" env).statusUpdate = some "accepted") := by
  refine ⟨?_, ?_⟩
  · intro msg hcl
    rw [respond_accept_checklistFetch_error env r msg hreq hpending hupd hcl]
    exact ⟨rfl, rfl⟩
  · intro cl nid msg hcl hnc hts
    rw [respond_accept_tasksFetch_error env r cl nid msg hreq hpending hupd hcl hnc hts]
    exact ⟨rfl, rfl⟩

/-- C3: responding fires the transition at most once — a missing request id is
answered 404 and a non-pending request 400, in both cases with no status
write, no checklist row and no task insert; and whenever a status value is
written, the request existed, was pending, and the value written is
`accepted` or `rejected`. -/
theorem respond_transition_fires_at_most_once (action : String) (env : RespondEnv) :
    ((action = "accept" ∨ action = "reject") → env.request = none →
      (respond action env).response = HttpResponse.notFound "Request not found" ∧
      noWrites (respond action env)) ∧
    ((action = "accept" ∨ action = "reject") → ∀ r, env.request = some r →
      r.status ≠ "pending" →
      (respond action env).response = HttpResponse.badRequest "Request already processed" ∧
      noWrites (respond action env)) ∧
    (∀ s, (respond action env).statusUpdate = some s →
      ∃ r, env.request = some r ∧ r.status = "pending" ∧
        (s = "accepted" ∨ s = "rejected")) := by
  refine ⟨?_, ?_, ?_⟩
  · rintro (rfl | rfl) hreq <;> simp [respond, hreq, noWrites]
  · rintro (rfl | rfl) r hreq hst <;> simp [respond, hreq, hst, noWrites]
  · intro s hs
    by_cases haccrej : action = "accept" ∨ action = "reject"
    case neg =>
      have ha := not_or.mp haccrej
      simp [respond, ha.1, ha.2] at hs
    case pos =>
      rcases haccrej with rfl | rfl
      · cases hreq : env.request with
        | none => simp [respond, hreq] at hs
        | some r =>
            by_cases hst : r.status = "pending"
            · refine ⟨r, rfl, hst, ?_⟩
              cases hupd : env.updateError with
              | some msg => simp [respond, hreq, hst, hupd] at hs
              | none =>
                  cases hcl : env.checklistFetch with
                  | error msg =>
                      simp [respond, hreq, hst, hupd, hcl] at hs
                      exact Or.inl hs.symm
                  | ok cl =>
                      cases hnc : env.newChecklistInsert with
                      | error msg =>
                          simp [respond, hreq, hst, hupd, hcl, hnc] at hs
                          exact Or.inl hs.symm
                      | ok nid =>
                          cases hts : env.tasksFetch with
                          | error msg =>
                              simp [respond, hreq, hst, hupd, hcl, hnc, hts] at hs
                              exact Or.inl hs.symm
                          | ok ts =>
                              simp [respond, hreq, hst, hupd, hcl, hnc, hts] at hs
                              exact Or.inl hs.symm
            · simp [respond, hreq, hst] at hs
      · cases hreq : env.request with
        | none => simp [respond, hreq] at hs
        | some r =>
            by_cases hst : r.status = "pending"
            · refine ⟨r, rfl, hst, ?_⟩
              cases hupd : env.updateError with
              | some msg => simp [respond, hreq, hst, hupd] at hs
              | none =>
                  simp [respond, hreq, hst, hupd] at hs
                  exact Or.inr hs.symm
            · simp [respond, hreq, hst] at hs

/-- Witness for C3: a missing request is answered 404 with no writes, and an
already-accepted request is answered 400 "already processed" with no writes. -/
theorem respond_transition_fires_at_most_once_witness :
    ((respond "accept" envNoRequest).response =
        HttpResponse.notFound "Request not found" ∧
      noWrites (respond "accept" envNoRequest)) ∧
    ((respond "accept" envProcessed).response =
        HttpResponse.badRequest "Request already processed" ∧
      noWrites (respond "accept" envProcessed)) :=
  ⟨(respond_transition_fires_at_most_once "accept" envNoRequest).1 (Or.inl rfl) rfl,
   (respond_transition_fires_at_most_once "accept" envProcessed).2.1 (Or.inl rfl)
     { pendingRequest with status := "accepted" } rfl (by decide)⟩

/-- C6: a login request with an existing profile and a wrong password is
answered 401, and no profile-endpoint response shape contains the
`password_hash` field: the create/list/update select lists omit it and the
login success payload is the row with `password_hash` destructured away. -/
theorem login_wrong_password_401_and_no_password_hash :
    (∀ pid pw p cmp, truthyStr (some pid) = true → truthyStr (some pw) = true →
      cmp pw p.password_hash = false →
      login (some pid) (some pw) (some p) cmp =
        LoginResponse.unauthorized "Invalid password") ∧
    "password_hash" ∉ profileCreateSelectColumns ∧
    "password_hash" ∉ profileListSelectColumns ∧
    "password_hash" ∉ profileUpdateSelectColumns ∧
    "password_hash" ∉ loginSuccessColumns := by
  refine ⟨?_, ?_, ?_, ?_, ?_⟩
  · intro pid pw p cmp hpid hpw hcmp
    simp [login, hpid, hpw, hcmp]
  · simp [profileCreateSelectColumns]
  · simp [profileListSelectColumns]
  · simp [profileUpdateSelectColumns]
  · simp [loginSuccessColumns, restSpreadOmit, profilesTableColumns]

/-- Witness for C6: the fixture profile with a comparison oracle that rejects
the password is answered 401. -/
theorem login_wrong_password_401_witness :
    login (some "5") (some "x") (some profileP) (fun _ _ => false) =
      LoginResponse.unauthorized "Invalid password" :=
  login_wrong_password_401_and_no_password_hash.1 "5" "x" profileP
    (fun _ _ => false) rfl rfl rfl

/-- C7 counterexample: `POST /api/tasks` performs no validation — a request
body with every field missing (in particular the required `title` and
`checklist_id`) still reaches the database (one call is issued) and is
answered 500 when that call fails, never 400. -/
theorem createTask_missing_fields_hits_database :
    (createTask emptyTaskBody
        (Except.error { message := "boom", code := "XX000" })).dbCalls = 1 ∧
    (createTask emptyTaskBody
        (Except.error { message := "boom", code := "XX000" })).status = 500 :=
  ⟨rfl, rfl⟩

/-- C7 amended: endpoints that perform validation (profile create, checklist
create, login) detect a missing required field locally, answer 400 and issue
no database call; but task creation performs no validation and issues its
insert on every request, whatever fields are missing. -/
theorem validation_short_circuits_except_task_create :
    (∀ nm pw av ins, truthyStr nm = false ∨ truthyStr pw = false →
      createProfile nm pw av ins = { dbCalls := 0, status := 400 }) ∧
    (∀ pid ttl ins, truthyStr pid = false ∨ truthyStr ttl = false →
      createChecklist pid ttl ins = { dbCalls := 0, status := 400 }) ∧
    (∀ pid pw fetch cmp, truthyStr pid = false ∨ truthyStr pw = false →
      login pid pw fetch cmp =
        LoginResponse.badRequest "Profile ID and password required") ∧
    (∀ body ins, (createTask body ins).dbCalls = 1) := by
  refine ⟨?_, ?_, ?_, ?_⟩
  · intro nm pw av ins h
    unfold createProfile
    rw [if_pos h]
  · intro pid ttl ins h
    unfold createChecklist
    rw [if_pos h]
  · intro pid pw fetch cmp h
    unfold login
    rw [if_pos h]
  · intro body ins
    cases ins <;> rfl

/-- Witness for C7 (amended): a profile-create request without a name is
answered 400 with zero database calls, while a task-create request with an
empty body still issues its one database call. -/
theorem validation_short_circuits_witness :
    createProfile none (some "pw") none
        (Except.error { message := "x", code := "y" }) =
      { dbCalls := 0, status := 400 } ∧
    (createTask emptyTaskBody (Except.ok taskA)).dbCalls = 1 :=
  ⟨validation_short_circuits_except_task_create.1 none (some "pw") none
      (Except.error { message := "x", code := "y" }) (Or.inl rfl),
   validation_short_circuits_except_task_create.2.2.2 emptyTaskBody (Except.ok taskA)⟩

/-- C9: task update is partial and field-presence-driven — each of the seven
updatable fields takes the body's value exactly when the body carries that
field and keeps the row's previous value otherwise, and the fields not in the
update whitelist (id, checklist id, parent id) are always unchanged. -/
theorem applyTaskUpdate_field_presence_driven (b : TaskUpdateBody) (row : Task) :
    (applyTaskUpdate b row).title = b.title.getD row.title ∧
    (applyTaskUpdate b row).description = b.description.getD row.description ∧
    (applyTaskUpdate b row).is_completed = b.is_completed.getD row.is_completed ∧
    (applyTaskUpdate b row).order_num = b.order_num.getD row.order_num ∧
    (applyTaskUpdate b row).start_time = b.start_time.getD row.start_time ∧
    (applyTaskUpdate b row).end_time = b.end_time.getD row.end_time ∧
    (applyTaskUpdate b row).allocated_time = b.allocated_time.getD row.allocated_time ∧
    (applyTaskUpdate b row).id = row.id ∧
    (applyTaskUpdate b row).checklist_id = row.checklist_id ∧
    (applyTaskUpdate b row).parent_id = row.parent_id := by
  obtain ⟨t, d, c, o, s, e, a⟩ := b
  cases t <;> cases d <;> cases c <;> cases o <;> cases s <;> cases e <;> cases a <;>
    simp [applyTaskUpdate, buildTaskUpdates, applyAssign]

/-- Witness for C10: in the fixture environment whose task fetch fails, the
response is a server error while the request status was still set to
`accepted`. -/
theorem respond_status_accepted_despite_clone_failure_witness :
    (respond "accept" envTasksFetchFails).response =
      HttpResponse.serverError "db down" ∧
    (respond "accept" envTasksFetchFails).statusUpdate = some "accepted" :=
  (respond_status_accepted_despite_clone_failure envTasksFetchFails
      pendingRequest rfl rfl rfl).2 sourceChecklist 20 "db down" rfl rfl rfl

end ChecklistBackend
